import Mathlib

/-!
Shallow embedding of the `Datastream` client (src/datastream.ts) of the
data-api-sdk repository: a dual-channel publish/subscribe WebSocket client
with delivery deduplication, topic routing, a subscription registry and
reconnection with exponential backoff.

State fields mirror the private fields of the `Datastream` class; every
operation is translated directly from the corresponding method.  Side
effects (outbound control messages, emitted events, timers, socket closes)
are reified as an explicit list of `Effect`s returned next to the updated
state.  `Math.random()` is passed in as an explicit rational parameter.
-/

set_option linter.unusedVariables false

/-- Readiness of a WebSocket object, mirroring `readyState`
(CONNECTING / OPEN / CLOSING / CLOSED). -/
inductive ReadyState
  | connecting
  | opened
  | closing
  | closed
  deriving DecidableEq, Repr

/-- The two physical channels: `socket` ("main") and `transactionSocket`
("transaction"). -/
inductive Chan
  | main
  | txn
  deriving DecidableEq, Repr

/-- The other channel. -/
def Chan.other : Chan → Chan
  | .main => .txn
  | .txn => .main

/-- Scope reported with a `disconnected` event: the per-socket `onclose`
handler reports its channel, `disconnect()` reports `'all'`. -/
inductive Scope
  | mainScope
  | txnScope
  | allScope
  deriving DecidableEq, Repr

/-- Scope string emitted by the `onclose` handler of a given channel. -/
def Chan.scope : Chan → Scope
  | .main => .mainScope
  | .txn => .txnScope

/-- Outbound control message kind (`{type: 'join'|'leave', room}`). -/
inductive CtrlType
  | join
  | leave
  deriving DecidableEq, Repr

/-- An inbound data payload; only the fields the client inspects are kept:
`data.tx` (delivery identifier used for deduplication) and `data.token`
(used for the price special case).  `none` models an absent field. -/
structure Payload where
  tx : Option String
  token : Option String
  deriving DecidableEq, Repr

/-- Reified side effect of an operation. -/
inductive Effect
  | send (ch : Chan) (type : CtrlType) (room : String)
  | closeSock (ch : Chan)
  | emitConnected
  | emitDisconnected (s : Scope)
  | emitReconnecting (n : Nat)
  | emitError
  | scheduleReconnect (wait : ℚ)
  | connectAttempt
  deriving DecidableEq, Repr

/-- JavaScript `s.includes(pat)`: substring containment. -/
def includes (s pat : String) : Bool :=
  decide (pat.data <:+: s.data)

/-- The state of a `Datastream` instance: its private fields.  The two
socket fields are `none` when the corresponding reference is `null`;
configuration values are carried in the state as in the class. -/
structure Datastream where
  socket : Option ReadyState
  transactionSocket : Option ReadyState
  reconnectAttempts : Nat
  subscribedRooms : List String
  transactions : List String
  autoReconnect : Bool
  isConnecting : Bool
  reconnectDelay : ℚ
  reconnectDelayMax : ℚ
  randomizationFactor : ℚ
  deriving DecidableEq, Repr

/-- `socket && socket.readyState === WebSocket.OPEN`. -/
def isOpen (so : Option ReadyState) : Bool :=
  so = some ReadyState.opened

/-- The channel a room is routed to:
`room.includes('transaction') ? this.transactionSocket : this.socket`,
as written identically in `_subscribe`, `unsubscribe` and
`resubscribeToRooms`. -/
def roomChan (room : String) : Chan :=
  if includes room "transaction" then .txn else .main

/-- The socket field for a channel. -/
def Datastream.chanSock (st : Datastream) : Chan → Option ReadyState
  | .main => st.socket
  | .txn => st.transactionSocket

/-- Replace the socket field of a channel. -/
def Datastream.setSock (st : Datastream) : Chan → Option ReadyState → Datastream
  | .main, v => { st with socket := v }
  | .txn, v => { st with transactionSocket := v }

/-- JavaScript `Set.prototype.add`: insertion-ordered, no duplicates. -/
def setAdd (xs : List String) (x : String) : List String :=
  if x ∈ xs then xs else xs ++ [x]

/-- JavaScript `Set.prototype.delete`. -/
def setDelete (xs : List String) (x : String) : List String :=
  xs.filter (fun y => y ≠ x)

/-- `Datastream._subscribe(room)` (registry/transport part): adds the room
to `subscribedRooms`; if the routed socket is open, sends a join message,
otherwise triggers a connection attempt (`this.connect()`). -/
def Datastream.subscribeRoom (st : Datastream) (room : String) :
    Datastream × List Effect :=
  let st' := { st with subscribedRooms := setAdd st.subscribedRooms room }
  if isOpen (st'.chanSock (roomChan room)) then
    (st', [Effect.send (roomChan room) .join room])
  else
    (st', [Effect.connectAttempt])

/-- `Datastream.unsubscribe(room)`: deletes the room from
`subscribedRooms`; if the routed socket is open, sends a leave message. -/
def Datastream.unsubscribeRoom (st : Datastream) (room : String) :
    Datastream × List Effect :=
  let st' := { st with subscribedRooms := setDelete st.subscribedRooms room }
  if isOpen (st'.chanSock (roomChan room)) then
    (st', [Effect.send (roomChan room) .leave room])
  else
    (st', [])

/-- `Datastream.resubscribeToRooms()`: when both sockets are open, sends a
join for every subscribed room, routed per room; otherwise does nothing. -/
def Datastream.resubscribeToRooms (st : Datastream) : List Effect :=
  if isOpen st.socket && isOpen st.transactionSocket then
    st.subscribedRooms.map (fun room => Effect.send (roomChan room) .join room)
  else
    []

/-- The state after the `socket.onopen` handler installed in
`createSocket(type)`: the socket is stored in the field for its type and
`reconnectAttempts` is reset to 0. -/
def Datastream.afterOpen (st : Datastream) (ch : Chan) : Datastream :=
  { st.setSock ch (some .opened) with reconnectAttempts := 0 }

/-- The pair returned by the `onopen` handler: the updated state and the
effects of the `resubscribeToRooms()` call it makes. -/
def Datastream.socketOnOpen (st : Datastream) (ch : Chan) :
    Datastream × List Effect :=
  (st.afterOpen ch, (st.afterOpen ch).resubscribeToRooms)

/-- `Datastream.reconnect()`: if `autoReconnect`, emits `reconnecting`,
computes `delay = min(reconnectDelay * 2^attempts, reconnectDelayMax)`,
`jitter = delay * randomizationFactor`, and schedules a timer for
`delay + rand * jitter` where `rand` models `Math.random()`. -/
def Datastream.reconnectOp (st : Datastream) (rand : ℚ) :
    Datastream × List Effect :=
  if st.autoReconnect then
    let delay := min (st.reconnectDelay * 2 ^ st.reconnectAttempts) st.reconnectDelayMax
    let jitter := delay * st.randomizationFactor
    (st, [Effect.emitReconnecting st.reconnectAttempts,
          Effect.scheduleReconnect (delay + rand * jitter)])
  else
    (st, [])

/-- The body of the `setTimeout` callback in `reconnect()`: increments
`reconnectAttempts` (the subsequent `this.connect()` call is modelled
separately via `connectIsNoOp`). -/
def Datastream.reconnectTimerFire (st : Datastream) : Datastream :=
  { st with reconnectAttempts := st.reconnectAttempts + 1 }

/-- The early-return guards of `Datastream.connect()`: the call does
nothing exactly when both socket references are non-null or a connect is
already in flight. -/
def Datastream.connectIsNoOp (st : Datastream) : Bool :=
  (st.socket.isSome && st.transactionSocket.isSome) || st.isConnecting

/-- The `socket.onclose` handler installed in `setupSocketListeners`:
emits `disconnected` with the channel's scope, nulls the channel's socket
field, and — when `autoReconnect` is set — runs `reconnect()`. -/
def Datastream.socketOnClose (st : Datastream) (ch : Chan) (rand : ℚ) :
    Datastream × List Effect :=
  let st' := st.setSock ch none
  if st'.autoReconnect then
    let (st'', es) := st'.reconnectOp rand
    (st'', Effect.emitDisconnected ch.scope :: es)
  else
    (st', [Effect.emitDisconnected ch.scope])

/-- `Datastream.disconnect()`: closes any live socket, nulls both socket
fields, clears `subscribedRooms` and `transactions`, and emits
`disconnected` with scope `'all'`. -/
def Datastream.disconnectOp (st : Datastream) : Datastream × List Effect :=
  let e1 := if st.socket.isSome then [Effect.closeSock .main] else []
  let e2 := if st.transactionSocket.isSome then [Effect.closeSock .txn] else []
  ({ st with socket := none, transactionSocket := none,
             subscribedRooms := [], transactions := [] },
   e1 ++ e2 ++ [Effect.emitDisconnected .allScope])

/-- `Datastream.isConnected()`. -/
def Datastream.isConnectedQ (st : Datastream) : Bool :=
  isOpen st.socket && isOpen st.transactionSocket

/-! ### Listener model and inbound message dispatch

`Datastream` extends Node's `EventEmitter`.  A listener is modelled by an
identity and an abstract behaviour flag `throws`: `emit` invokes listeners
in registration order and an exception from one listener aborts the
remaining listeners of that `emit` call (Node `EventEmitter.emit`
semantics); the exception then escapes to the enclosing `try`/`catch` of
the `onmessage` handler. -/

/-- A registered listener: its identity and whether invoking it throws. -/
structure Listener where
  id : Nat
  throws : Bool
  deriving DecidableEq, Repr

/-- The emitter's listener table: (event name, listener) pairs in
registration order. -/
abbrev Registry := List (String × Listener)

/-- `this.on(room, l)` (`EventEmitter.prototype.on` appends). -/
def addListener (reg : Registry) (room : String) (l : Listener) : Registry :=
  reg ++ [(room, l)]

/-- `this.removeListener(room, l)`: removes the single registered
occurrence of that exact listener function for that event (the wrapper
closures created by `on` are pairwise distinct, so ids are unique). -/
def removeListenerById : Registry → String → Nat → Registry
  | [], _, _ => []
  | p :: rest, room, lid =>
      if p.1 = room ∧ p.2.id = lid then rest
      else p :: removeListenerById rest room lid

/-- The disposer returned by `SubscribeResponse.on`: its `unsubscribe`
calls `this.removeListener(room, wrappedCallback)` and touches nothing
else — in particular not `subscribedRooms`. -/
def disposerRun (st : Datastream) (reg : Registry) (room : String) (lid : Nat) :
    Datastream × Registry :=
  (st, removeListenerById reg room lid)

/-- Listeners registered for an event, in registration order
(`EventEmitter` dispatch order). -/
def listenersFor (reg : Registry) (room : String) : List Listener :=
  (reg.filter (fun p => p.1 = room)).map Prod.snd

/-- `emit`: invoke listeners in order; a throwing listener runs (so it is
invoked) and aborts the rest.  Returns the invoked ids and whether an
exception escaped. -/
def invokeAll : List Listener → List Nat × Bool
  | [] => ([], false)
  | l :: rest =>
      if l.throws then ([l.id], true)
      else
        let r := invokeAll rest
        (l.id :: r.1, r.2)

/-- `message.data.token` as interpolated into the synthesized room name:
an absent field prints as `"undefined"`. -/
def tokenField (d : Payload) : String :=
  match d.token with
  | some t => t
  | none => "undefined"

/-- The delivery identifier actually used by the dedup check
`message.data?.tx && ...`: an empty string is falsy in JavaScript, so it
never participates in deduplication. -/
def txKey (d : Payload) : Option String :=
  match d.tx with
  | some t => if t = "" then none else some t
  | none => none

/-- Dispatch of a deduplicated data envelope inside the `try` block: if
the room contains `'price:'`, first emit under the synthesized
`price-by-token:<data.token>` room, then emit under the original room.
An exception from the first emit escapes to the `catch` and skips the
second. -/
def dispatch (reg : Registry) (room : String) (d : Payload) : List Nat × Bool :=
  if includes room "price:" then
    let r1 := invokeAll (listenersFor reg ("price-by-token:" ++ tokenField d))
    if r1.2 then r1
    else
      let r2 := invokeAll (listenersFor reg room)
      (r1.1 ++ r2.1, r2.2)
  else
    invokeAll (listenersFor reg room)

/-- A parsed inbound frame: a JSON parse failure, a frame whose `type` is
not `'message'`, or a data frame `{type:'message', room, data}`. -/
inductive InMsg
  | malformed
  | nonData
  | dataMsg (room : String) (d : Payload)
  deriving DecidableEq, Repr

/-- Result of the `onmessage` handler: updated state, the ids of invoked
listeners (in invocation order), and whether an `error` event was
emitted by the `catch` block. -/
structure DispatchResult where
  state : Datastream
  invoked : List Nat
  errorEmitted : Bool
  deriving DecidableEq, Repr

/-- The `socket.onmessage` handler of `setupSocketListeners`: parse;
ignore non-`'message'` frames; suppress a data frame whose truthy
`data.tx` was already seen, else record it; then dispatch (price special
case plus normal room emit), catching listener exceptions. -/
def Datastream.onMessage (st : Datastream) (reg : Registry) (m : InMsg) :
    DispatchResult :=
  match m with
  | .malformed => ⟨st, [], true⟩
  | .nonData => ⟨st, [], false⟩
  | .dataMsg room d =>
      match txKey d with
      | some txid =>
          if txid ∈ st.transactions then ⟨st, [], false⟩
          else
            let st' := { st with transactions := setAdd st.transactions txid }
            let r := dispatch reg room d
            ⟨st', r.1, r.2⟩
      | none =>
          let r := dispatch reg room d
          ⟨st, r.1, r.2⟩

/-! ### Substring lemmas for the `includes`-based routing -/

/-- `includes` decides list infixhood of the pattern's characters. -/
lemma includes_iff (s pat : String) :
    includes s pat = true ↔ pat.data <:+: s.data := by
  simp [includes]

/-- A pattern contained in the right part of a concatenation is contained
in the concatenation. -/
lemma includes_append_left (a b pat : String) (h : includes b pat = true) :
    includes (a ++ b) pat = true := by
  rw [includes_iff] at h ⊢
  obtain ⟨s, t, hst⟩ := h
  exact ⟨a.data ++ s, t, by rw [String.data_append, ← hst]; simp [List.append_assoc]⟩

/-- A pattern is contained in any string it starts. -/
lemma includes_self_append (pat b : String) :
    includes (pat ++ b) pat = true := by
  rw [includes_iff]
  exact ⟨[], b.data, by rw [String.data_append]; simp⟩

/-- Where an occurrence of `p` inside `a ++ b` can sit: entirely in `a`,
entirely in `b`, or starting inside `a` — in which case some nonempty
suffix of `a` starts `p`. -/
lemma infix_append_decomp {p a b : List Char} (h : p <:+: a ++ b) :
    p <:+: a ∨ p <:+: b ∨ ∃ u, u <:+ a ∧ u ≠ [] ∧ u <+: p := by
  obtain ⟨s, t, hst⟩ := h
  have hs : s <+: a ++ b := ⟨p ++ t, by simpa [List.append_assoc] using hst⟩
  have ha : a <+: a ++ b := List.prefix_append a b
  by_cases hl : a.length ≤ s.length
  · have has : a <+: s := List.prefix_of_prefix_length_le ha hs hl
    obtain ⟨s', rfl⟩ := has
    right; left
    refine ⟨s', t, ?_⟩
    have hc : a ++ (s' ++ p ++ t) = a ++ b := by
      simpa [List.append_assoc] using hst
    simpa [List.append_assoc] using List.append_cancel_left hc
  · push_neg at hl
    have hsa : s <+: a := List.prefix_of_prefix_length_le hs ha (le_of_lt hl)
    obtain ⟨u, rfl⟩ := hsa
    have hu : u ≠ [] := by
      intro h0
      subst h0
      simp at hl
    have hpt : p ++ t = u ++ b := by
      have hc : s ++ (p ++ t) = s ++ (u ++ b) := by
        simpa [List.append_assoc] using hst
      exact List.append_cancel_left hc
    have hu2 : u <+: p ++ t := hpt ▸ List.prefix_append u b
    by_cases hup : u.length ≤ p.length
    · right; right
      exact ⟨u, List.suffix_append s u, hu,
        List.prefix_of_prefix_length_le hu2 (List.prefix_append p t) hup⟩
    · left
      push_neg at hup
      have hpu : p <+: u :=
        List.prefix_of_prefix_length_le (List.prefix_append p t) hu2 (le_of_lt hup)
      obtain ⟨v, rfl⟩ := hpu
      exact ⟨s, v, by simp [List.append_assoc]⟩

/-- No nonempty suffix of `"wallet:"` starts `"transaction"`, so the
pattern cannot straddle the boundary of `"wallet:" ++ w`: containment in
the whole topic implies containment in the wallet parameter. -/
lemma includes_wallet (w : String) (h : includes w "transaction" = false) :
    includes ("wallet:" ++ w) "transaction" = false := by
  by_contra hc
  rw [Bool.not_eq_false, includes_iff, String.data_append] at hc
  rcases infix_append_decomp hc with h1 | h2 | ⟨u, hua, hne, hup⟩
  · have hle := h1.length_le
    simp at hle
  · have ht : includes w "transaction" = true := (includes_iff w "transaction").mpr h2
    rw [h] at ht
    exact Bool.false_ne_true ht
  · have hdrop := List.suffix_iff_eq_drop.mp hua
    have hlen : u.length ≤ ("wallet:".data).length := hua.length_le
    have h7 : ("wallet:".data).length = 7 := by decide
    have hpos : 0 < u.length := List.length_pos.mpr hne
    have hall : ∀ i, i < 7 → ¬ (("wallet:".data.drop i) <+: "transaction".data) := by
      decide
    exact hall (("wallet:".data).length - u.length) (by omega) (hdrop ▸ hup)

/-! ### Claims -/

/-- Claim C10: channel routing for join, leave and replay is decided by
substring containment — a topic is routed to the transaction connection
iff the string contains `"transaction"` anywhere.  Consequently a wallet
topic `wallet:<w>` whose wallet parameter does not contain
`"transaction"` is routed to the general connection, while any topic
whose embedded parameter contains `"transaction"` is routed to the
transaction connection; and `subscribeRoom` / `unsubscribeRoom` send
their join / leave on exactly that channel when it is open. -/
theorem c10_channel_routing :
    (∀ room : String, roomChan room = Chan.txn ↔ includes room "transaction" = true) ∧
    (∀ w : String, includes w "transaction" = false →
        roomChan ("wallet:" ++ w) = Chan.main) ∧
    (∀ pre param : String, includes param "transaction" = true →
        roomChan (pre ++ param) = Chan.txn) ∧
    (∀ st : Datastream, ∀ room : String,
        isOpen (st.chanSock (roomChan room)) = true →
        (st.subscribeRoom room).2 = [Effect.send (roomChan room) .join room] ∧
        (st.unsubscribeRoom room).2 = [Effect.send (roomChan room) .leave room]) := by
  refine ⟨?_, ?_, ?_, ?_⟩
  · intro room
    unfold roomChan
    by_cases h : includes room "transaction" = true
    · simp [h]
    · simp [h]
  · intro w hw
    unfold roomChan
    rw [includes_wallet w hw]
    simp
  · intro pre param hp
    unfold roomChan
    rw [includes_append_left pre param "transaction" hp]
    simp
  · intro st room hopen
    constructor
    · unfold Datastream.subscribeRoom
      have : isOpen
          (({ st with subscribedRooms := setAdd st.subscribedRooms room }
            : Datastream).chanSock (roomChan room)) = true := by
        cases hc : roomChan room <;>
          simpa [Datastream.chanSock, hc] using hopen
      simp [this]
    · unfold Datastream.unsubscribeRoom
      have : isOpen
          (({ st with subscribedRooms := setDelete st.subscribedRooms room }
            : Datastream).chanSock (roomChan room)) = true := by
        cases hc : roomChan room <;>
          simpa [Datastream.chanSock, hc] using hopen
      simp [this]

/-- Witness for C10 at concrete inputs: a plain wallet topic goes to the
general channel; a topic whose parameter contains `"transaction"` goes to
the transaction channel; a subscribe on an open general channel sends its
join there. -/
theorem c10_channel_routing_witness :
    roomChan ("wallet:" ++ "abc") = Chan.main ∧
    roomChan ("metadata:" ++ "xtransactiony") = Chan.txn ∧
    (Datastream.subscribeRoom
      { socket := some .opened, transactionSocket := some .opened,
        reconnectAttempts := 0, subscribedRooms := [], transactions := [],
        autoReconnect := true, isConnecting := false, reconnectDelay := 2500,
        reconnectDelayMax := 4500, randomizationFactor := 1/2 }
      "latest").2 = [Effect.send (roomChan "latest") .join "latest"] :=
  ⟨c10_channel_routing.2.1 "abc" (by decide),
   c10_channel_routing.2.2.1 "metadata:" "xtransactiony" (by decide),
   (c10_channel_routing.2.2.2 _ "latest" (by decide)).1⟩

/-! ### Registry helper lemmas -/

/-- An element just added is a member. -/
lemma setAdd_mem_self (xs : List String) (x : String) : x ∈ setAdd xs x := by
  unfold setAdd
  by_cases h : x ∈ xs <;> simp [h]

/-- `Set.add` is idempotent. -/
lemma setAdd_idem (xs : List String) (x : String) :
    setAdd (setAdd xs x) x = setAdd xs x := by
  unfold setAdd
  by_cases h : x ∈ xs <;> simp [h]

/-- `Set.add` preserves freedom from duplicates. -/
lemma setAdd_nodup (xs : List String) (x : String) (h : xs.Nodup) :
    (setAdd xs x).Nodup := by
  unfold setAdd
  by_cases hx : x ∈ xs
  · simpa [hx]
  · simp [hx, List.nodup_append, h]

/-- After adding to a duplicate-free set the element occurs exactly once. -/
lemma setAdd_count (xs : List String) (x : String) (h : xs.Nodup) :
    (setAdd xs x).count x = 1 :=
  List.count_eq_one_of_mem (setAdd_nodup xs x h) (setAdd_mem_self xs x)

/-- Updating `subscribedRooms` does not change any socket field. -/
lemma chanSock_rooms (st : Datastream) (rs : List String) (c : Chan) :
    ({ st with subscribedRooms := rs } : Datastream).chanSock c = st.chanSock c := by
  cases c <;> rfl

/-- The state produced by `_subscribe` is the same in both branches. -/
lemma subscribeRoom_state (st : Datastream) (room : String) :
    (st.subscribeRoom room).1
      = { st with subscribedRooms := setAdd st.subscribedRooms room } := by
  simp only [Datastream.subscribeRoom]
  split <;> rfl

/-- The state produced by `unsubscribe` is the same in both branches. -/
lemma unsubscribeRoom_state (st : Datastream) (room : String) :
    (st.unsubscribeRoom room).1
      = { st with subscribedRooms := setDelete st.subscribedRooms room } := by
  simp only [Datastream.unsubscribeRoom]
  split <;> rfl

/-- The room-to-effect function of the replay loop is injective. -/
lemma count_join_map (rooms : List String) (room : String) :
    (rooms.map (fun r => Effect.send (roomChan r) .join r)).count
      (Effect.send (roomChan room) .join room) = rooms.count room := by
  have hinj : Function.Injective (fun r => Effect.send (roomChan r) CtrlType.join r) := by
    intro a b hab
    injection hab
  exact List.count_map_of_injective rooms _ hinj room

/-- A concrete client state with both channels open and default
configuration, used as the concrete input of several witnesses and
counterexamples. -/
def openBoth : Datastream :=
  { socket := some .opened, transactionSocket := some .opened,
    reconnectAttempts := 0, subscribedRooms := [], transactions := [],
    autoReconnect := true, isConnecting := false, reconnectDelay := 2500,
    reconnectDelayMax := 4500, randomizationFactor := 1/2 }

/-- Counterexample to claim C7: with the general connection open and the
topic `"latest"` absent from the desired set, `unsubscribe("latest")` is
not a no-op — a leave control message is still sent. -/
theorem c7_unsubscribe_counterexample :
    openBoth.subscribedRooms = [] ∧
    (openBoth.unsubscribeRoom "latest").2
      = [Effect.send .main .leave "latest"] := by
  constructor
  · rfl
  · decide

/-- Claim C7 amended: `unsubscribe(topic)` removes the topic from the
desired set; a leave control message is sent if and only if the
connection relevant to the topic is open — regardless of whether the
topic was present in the desired set; when the relevant connection is
not open nothing is sent, and in every case the only state change is the
topic's absence from the desired set (deduplication state and both
socket references are untouched). -/
theorem c7_unsubscribe_spec (st : Datastream) (room : String) :
    (st.unsubscribeRoom room).1.subscribedRooms
        = setDelete st.subscribedRooms room ∧
    room ∉ (st.unsubscribeRoom room).1.subscribedRooms ∧
    ((st.unsubscribeRoom room).2 = [Effect.send (roomChan room) .leave room]
        ↔ isOpen (st.chanSock (roomChan room)) = true) ∧
    ((st.unsubscribeRoom room).2 = []
        ↔ isOpen (st.chanSock (roomChan room)) = false) ∧
    (st.unsubscribeRoom room).1.transactions = st.transactions ∧
    (st.unsubscribeRoom room).1.socket = st.socket ∧
    (st.unsubscribeRoom room).1.transactionSocket = st.transactionSocket := by
  have hst := unsubscribeRoom_state st room
  refine ⟨by rw [hst], ?_, ?_, ?_, by rw [hst], by rw [hst], by rw [hst]⟩
  · rw [hst]
    simp [setDelete]
  · simp only [Datastream.unsubscribeRoom]
    rw [chanSock_rooms]
    by_cases h : isOpen (st.chanSock (roomChan room)) = true <;> simp [h]
  · simp only [Datastream.unsubscribeRoom]
    rw [chanSock_rooms]
    by_cases h : isOpen (st.chanSock (roomChan room)) = true <;> simp [h]

/-- Counterexample to claim C8: with the general connection open, calling
`subscribe("latest")` twice leaves exactly one registry entry but sends
two join messages on the same connection, with no reconnection in
between — refuting "at most one join message per actual connection". -/
theorem c8_subscribe_counterexample :
    ((openBoth.subscribeRoom "latest").1.subscribeRoom "latest").1.subscribedRooms
        = ["latest"] ∧
    ((openBoth.subscribeRoom "latest").2
        ++ ((openBoth.subscribeRoom "latest").1.subscribeRoom "latest").2).count
        (Effect.send .main .join "latest") = 2 := by
  constructor
  · decide
  · decide

/-- Claim C8 amended: `subscribe` is idempotent on registry state — after
subscribing to the same topic twice the desired set has exactly one entry
for it and is unchanged by the second call — and a replay
(`resubscribeToRooms`) sends at most one join per topic; however each
`subscribe` call made while the relevant connection is open sends its own
join message (so two calls while connected send two joins). -/
theorem c8_subscribe_idempotent (st : Datastream) (room : String) :
    ((st.subscribeRoom room).1.subscribeRoom room).1.subscribedRooms
        = (st.subscribeRoom room).1.subscribedRooms ∧
    room ∈ (st.subscribeRoom room).1.subscribedRooms ∧
    (st.subscribedRooms.Nodup →
        (st.subscribeRoom room).1.subscribedRooms.count room = 1 ∧
        (st.subscribeRoom room).1.subscribedRooms.Nodup) ∧
    (isOpen (st.chanSock (roomChan room)) = true →
        (st.subscribeRoom room).2 = [Effect.send (roomChan room) .join room]) ∧
    (st.subscribedRooms.Nodup →
        (st.subscribeRoom room).1.resubscribeToRooms.count
          (Effect.send (roomChan room) .join room) ≤ 1) := by
  have hst := subscribeRoom_state st room
  refine ⟨?_, ?_, ?_, ?_, ?_⟩
  · rw [hst, subscribeRoom_state]
    simp [setAdd_idem]
  · rw [hst]
    exact setAdd_mem_self _ _
  · intro hnd
    rw [hst]
    exact ⟨setAdd_count _ _ hnd, setAdd_nodup _ _ hnd⟩
  · intro hop
    simp only [Datastream.subscribeRoom]
    rw [chanSock_rooms, hop]
    simp
  · intro hnd
    rw [hst]
    unfold Datastream.resubscribeToRooms
    split
    · rw [count_join_map]
      exact le_of_eq (setAdd_count _ _ hnd)
    · simp

/-- Witness for C8's amended claim at a concrete input: double-subscribe
to `"latest"` on a fully connected default client. -/
theorem c8_subscribe_idempotent_witness :
    ((openBoth.subscribeRoom "latest").1.subscribeRoom "latest").1.subscribedRooms
        = (openBoth.subscribeRoom "latest").1.subscribedRooms ∧
    (openBoth.subscribeRoom "latest").1.subscribedRooms.count "latest" = 1 ∧
    (openBoth.subscribeRoom "latest").2
        = [Effect.send (roomChan "latest") .join "latest"] ∧
    (openBoth.subscribeRoom "latest").1.resubscribeToRooms.count
        (Effect.send (roomChan "latest") .join "latest") ≤ 1 := by
  have h := c8_subscribe_idempotent openBoth "latest"
  exact ⟨h.1, (h.2.2.1 (by decide)).1, h.2.2.2.1 (by decide), h.2.2.2.2 (by decide)⟩

/-! ### Listener-removal lemmas (disposer) -/

/-- Removing a listener whose id occurs nowhere earlier removes exactly
the marked occurrence. -/
lemma removeListenerById_fresh (reg1 reg2 : Registry) (room : String) (l : Listener)
    (h : ∀ p ∈ reg1, p.2.id ≠ l.id) :
    removeListenerById (reg1 ++ (room, l) :: reg2) room l.id = reg1 ++ reg2 := by
  induction reg1 with
  | nil => simp [removeListenerById]
  | cons p rest ih =>
      have hp : p.2.id ≠ l.id := h p (by simp)
      have hr := ih (fun q hq => h q (by simp [hq]))
      simp [removeListenerById, hp, hr]

/-- Claim C9: invoking the disposer returned by a per-listener
subscription removes exactly that one listener: with ids unique (each
`on` call registers a fresh wrapper closure), removing the marked
listener leaves every other registration — same topic or not, before or
after it — in place and in order, and leaves the `Datastream` state,
in particular the desired-topic set, unchanged. -/
theorem c9_disposer_removes_one (st : Datastream) (reg1 reg2 : Registry)
    (room : String) (l : Listener)
    (h : ∀ p ∈ reg1, p.2.id ≠ l.id) :
    (disposerRun st (reg1 ++ (room, l) :: reg2) room l.id).2 = reg1 ++ reg2 ∧
    (disposerRun st (reg1 ++ (room, l) :: reg2) room l.id).1 = st ∧
    (disposerRun st (reg1 ++ (room, l) :: reg2) room l.id).1.subscribedRooms
        = st.subscribedRooms ∧
    ∀ q ∈ reg1 ++ reg2,
        q ∈ (disposerRun st (reg1 ++ (room, l) :: reg2) room l.id).2 := by
  unfold disposerRun
  rw [removeListenerById_fresh reg1 reg2 room l h]
  exact ⟨rfl, rfl, rfl, fun q hq => hq⟩

/-- Witness for C9: two other listeners (one on the same topic, one on
another topic) survive disposal of listener 2 on `"latest"`, and the
desired-topic set is untouched. -/
theorem c9_disposer_removes_one_witness :
    (disposerRun openBoth
        ([("latest", ⟨1, false⟩)] ++ ("latest", ⟨2, false⟩) :: [("other", ⟨3, false⟩)])
        "latest" 2).2
      = [("latest", ⟨1, false⟩)] ++ [("other", ⟨3, false⟩)] ∧
    (disposerRun openBoth
        ([("latest", ⟨1, false⟩)] ++ ("latest", ⟨2, false⟩) :: [("other", ⟨3, false⟩)])
        "latest" 2).1.subscribedRooms = openBoth.subscribedRooms := by
  have h := c9_disposer_removes_one openBoth
      [("latest", ⟨1, false⟩)] [("other", ⟨3, false⟩)] "latest" ⟨2, false⟩
      (by decide)
  exact ⟨h.1, h.2.2.1⟩

/-! ### Replay gating lemmas -/

/-- `setSock` on one channel leaves the other channel's socket alone. -/
lemma chanSock_setSock_other (st : Datastream) (ch : Chan) (v : Option ReadyState) :
    (st.setSock ch v).chanSock ch.other = st.chanSock ch.other := by
  cases ch <;> rfl

/-- `setSock` stores the given socket on its channel. -/
lemma chanSock_setSock_self (st : Datastream) (ch : Chan) (v : Option ReadyState) :
    (st.setSock ch v).chanSock ch = v := by
  cases ch <;> rfl

/-- `setSock` does not touch the subscribed rooms. -/
lemma setSock_rooms (st : Datastream) (ch : Chan) (v : Option ReadyState) :
    (st.setSock ch v).subscribedRooms = st.subscribedRooms := by
  cases ch <;> rfl

/-- The replay loop never emits a join for a room on a channel the room
is not routed to. -/
lemma count_join_map_other (rooms : List String) (room : String) (c : Chan)
    (hc : c ≠ roomChan room) :
    (rooms.map (fun r => Effect.send (roomChan r) .join r)).count
      (Effect.send c .join room) = 0 := by
  rw [List.count_eq_zero]
  intro hmem
  rw [List.mem_map] at hmem
  obtain ⟨r, hr, he⟩ := hmem
  injection he with h1 h2 h3
  subst h3
  exact hc h1.symm

/-- `resubscribeToRooms` through the `chanSock` view. -/
lemma resubscribeToRooms_eq (st : Datastream) :
    st.resubscribeToRooms =
      if isOpen (st.chanSock .main) && isOpen (st.chanSock .txn) then
        st.subscribedRooms.map (fun room => Effect.send (roomChan room) .join room)
      else [] := rfl

/-- Claim C3: replay of join messages happens only when both connections
are simultaneously open; a channel-open event while the other channel is
not open sends no join for any topic; and when a channel-open event makes
both channels open, a join is sent exactly once for every topic
subscribed before (and never on the channel the topic is not routed to),
routed to the transaction connection exactly when the topic contains
`"transaction"`. -/
lemma afterOpen_chanSock_self (st : Datastream) (ch : Chan) :
    (st.afterOpen ch).chanSock ch = some .opened := by
  cases ch <;> rfl

/-- Opening one channel leaves the other channel's socket alone. -/
lemma afterOpen_chanSock_other (st : Datastream) (ch : Chan) :
    (st.afterOpen ch).chanSock ch.other = st.chanSock ch.other := by
  cases ch <;> rfl

/-- Opening a channel leaves the subscribed rooms alone. -/
lemma afterOpen_rooms (st : Datastream) (ch : Chan) :
    (st.afterOpen ch).subscribedRooms = st.subscribedRooms := by
  cases ch <;> rfl

/-- Opening a channel resets the attempt counter. -/
lemma afterOpen_attempts (st : Datastream) (ch : Chan) :
    (st.afterOpen ch).reconnectAttempts = 0 := by
  cases ch <;> rfl

/-- Claim C3: replay of join messages happens only when both connections
are simultaneously open; a channel-open event while the other channel is
not open sends no join for any topic; and when a channel-open event makes
both channels open, a join is sent exactly once for every topic
subscribed before (and never on the channel the topic is not routed to),
routed to the transaction connection exactly when the topic contains
`"transaction"`. -/
theorem c3_replay_both_open (st : Datastream) (ch : Chan) :
    ((isOpen st.socket = false ∨ isOpen st.transactionSocket = false) →
        st.resubscribeToRooms = []) ∧
    (isOpen (st.chanSock ch.other) = false → (st.socketOnOpen ch).2 = []) ∧
    (isOpen (st.chanSock ch.other) = true → st.subscribedRooms.Nodup →
        ∀ room ∈ st.subscribedRooms,
          (st.socketOnOpen ch).2.count (Effect.send (roomChan room) .join room) = 1 ∧
          (∀ c : Chan, c ≠ roomChan room →
              (st.socketOnOpen ch).2.count (Effect.send c .join room) = 0) ∧
          (roomChan room = Chan.txn ↔ includes room "transaction" = true)) := by
  refine ⟨?_, ?_, ?_⟩
  · intro h
    unfold Datastream.resubscribeToRooms
    rcases h with h | h <;> simp [h]
  · intro h
    show (st.afterOpen ch).resubscribeToRooms = []
    rw [resubscribeToRooms_eq]
    cases ch
    · rw [show (st.afterOpen .main).chanSock .txn = st.chanSock Chan.main.other from rfl]
      simp [h]
    · rw [show (st.afterOpen .txn).chanSock .main = st.chanSock Chan.txn.other from rfl]
      simp [h]
  · intro hop hnd room hmem
    have heff : (st.socketOnOpen ch).2
        = st.subscribedRooms.map (fun r => Effect.send (roomChan r) .join r) := by
      show (st.afterOpen ch).resubscribeToRooms = _
      rw [resubscribeToRooms_eq]
      cases ch
      · rw [show (st.afterOpen .main).chanSock .main = some .opened from rfl,
            show (st.afterOpen .main).chanSock .txn = st.chanSock Chan.main.other from rfl,
            show (st.afterOpen .main).subscribedRooms = st.subscribedRooms from rfl]
        have hop' : st.chanSock Chan.main.other = some ReadyState.opened := by
          simpa [isOpen] using hop
        simp [isOpen, hop']
      · rw [show (st.afterOpen .txn).chanSock .txn = some .opened from rfl,
            show (st.afterOpen .txn).chanSock .main = st.chanSock Chan.txn.other from rfl,
            show (st.afterOpen .txn).subscribedRooms = st.subscribedRooms from rfl]
        have hop' : st.chanSock Chan.txn.other = some ReadyState.opened := by
          simpa [isOpen] using hop
        simp [isOpen, hop']
    refine ⟨?_, ?_, ?_⟩
    · rw [heff, count_join_map]
      exact List.count_eq_one_of_mem hnd hmem
    · intro c hc
      rw [heff]
      exact count_join_map_other _ _ _ hc
    · unfold roomChan
      by_cases h : includes room "transaction" = true <;> simp [h]

/-- A client with the main channel open, the transaction channel absent,
and two topics (one per channel) subscribed before connecting. -/
def mainOnlyTwoRooms : Datastream :=
  { openBoth with transactionSocket := none,
                  subscribedRooms := ["latest", "transaction:abc"] }

/-- Witness for C3 at a concrete input: the main channel's open event
with the transaction channel still absent sends nothing; the transaction
channel's open event (making both open) sends exactly one join per topic
on the topic's own channel and none on the other. -/
theorem c3_replay_both_open_witness :
    (mainOnlyTwoRooms.socketOnOpen .main).2 = [] ∧
    (mainOnlyTwoRooms.socketOnOpen .txn).2.count
        (Effect.send (roomChan "latest") .join "latest") = 1 ∧
    (mainOnlyTwoRooms.socketOnOpen .txn).2.count
        (Effect.send .txn .join "latest") = 0 ∧
    (mainOnlyTwoRooms.socketOnOpen .txn).2.count
        (Effect.send (roomChan "transaction:abc") .join "transaction:abc") = 1 ∧
    (roomChan "transaction:abc" = Chan.txn ↔
        includes "transaction:abc" "transaction" = true) := by
  have hm := c3_replay_both_open mainOnlyTwoRooms .main
  have ht := c3_replay_both_open mainOnlyTwoRooms .txn
  have h1 := ht.2.2 (by decide) (by decide) "latest" (by decide)
  have h2 := ht.2.2 (by decide) (by decide) "transaction:abc" (by decide)
  exact ⟨hm.2.1 (by decide), h1.1, h1.2.1 .txn (by decide), h2.1, h2.2.2⟩

/-- Claim C5: for every attempt number n, `reconnect()` schedules a wait
of `delay + rand * (delay * jitterFactor)` with
`delay = min(baseDelay * 2^n, maxDelay)`; for `rand` drawn from `[0,1)`
the added jitter lies in `[0, delay * jitterFactor)`; the attempt counter
is incremented by the timer callback after the scheduled wait, and is
reset to zero by a successful socket open. -/
theorem c5_backoff (st : Datastream) (rand : ℚ) (ch : Chan)
    (hauto : st.autoReconnect = true) (h0 : 0 ≤ rand) (h1 : rand < 1) :
    (st.reconnectOp rand).2
      = [Effect.emitReconnecting st.reconnectAttempts,
         Effect.scheduleReconnect
           (min (st.reconnectDelay * 2 ^ st.reconnectAttempts) st.reconnectDelayMax
            + rand * (min (st.reconnectDelay * 2 ^ st.reconnectAttempts)
                st.reconnectDelayMax * st.randomizationFactor))] ∧
    (st.reconnectOp rand).1 = st ∧
    (0 < min (st.reconnectDelay * 2 ^ st.reconnectAttempts) st.reconnectDelayMax
          * st.randomizationFactor →
        0 ≤ rand * (min (st.reconnectDelay * 2 ^ st.reconnectAttempts)
              st.reconnectDelayMax * st.randomizationFactor) ∧
        rand * (min (st.reconnectDelay * 2 ^ st.reconnectAttempts)
              st.reconnectDelayMax * st.randomizationFactor)
          < min (st.reconnectDelay * 2 ^ st.reconnectAttempts) st.reconnectDelayMax
              * st.randomizationFactor) ∧
    st.reconnectTimerFire.reconnectAttempts = st.reconnectAttempts + 1 ∧
    (st.socketOnOpen ch).1.reconnectAttempts = 0 := by
  refine ⟨?_, ?_, ?_, rfl, afterOpen_attempts st ch⟩
  · simp [Datastream.reconnectOp, hauto]
  · simp [Datastream.reconnectOp, hauto]
  · intro hj
    exact ⟨mul_nonneg h0 (le_of_lt hj), mul_lt_of_lt_one_left hj h1⟩

/-- A disconnected client two failed attempts in. -/
def downTwoAttempts : Datastream :=
  { openBoth with socket := none, transactionSocket := none, reconnectAttempts := 2 }

/-- Witness for C5 at a concrete input: base 2500, cap 4500, jitter
factor 1/2, attempt 2, `rand` = 1/2: delay caps at 4500 and the wait is
4500 + (1/2)·2250 = 5625; the timer bumps the counter to 3 and an open
resets it. -/
theorem c5_backoff_witness :
    (downTwoAttempts.reconnectOp (1/2)).2
      = [Effect.emitReconnecting 2, Effect.scheduleReconnect 5625] ∧
    downTwoAttempts.reconnectTimerFire.reconnectAttempts = 3 ∧
    (downTwoAttempts.socketOnOpen .main).1.reconnectAttempts = 0 := by
  have h := c5_backoff downTwoAttempts (1/2) .main (by decide) (by norm_num) (by norm_num)
  refine ⟨?_, h.2.2.2.1, h.2.2.2.2⟩
  rw [h.1]
  norm_num [downTwoAttempts, openBoth]

/-! ### Dedup and dispatch lemmas -/

/-- `Set.add` never loses members. -/
lemma setAdd_mem_mono (xs : List String) (i x : String) (h : x ∈ xs) :
    x ∈ setAdd xs i := by
  unfold setAdd
  by_cases hi : i ∈ xs <;> simp [hi, h]

/-- `emit` over listeners none of which throws invokes all of them in
order and lets no exception escape. -/
lemma invokeAll_ok (ls : List Listener) (h : ∀ l ∈ ls, l.throws = false) :
    invokeAll ls = (ls.map Listener.id, false) := by
  induction ls with
  | nil => rfl
  | cons l rest ih =>
      have hl : l.throws = false := h l (by simp)
      have hr := ih (fun x hx => h x (by simp [hx]))
      simp [invokeAll, hl, hr]

/-- `emit` over a listener list whose first throwing listener is `l`
invokes the non-throwing ones before it and `l` itself, skips everything
after `l`, and lets the exception escape. -/
lemma invokeAll_throw (pre : List Listener) (l : Listener) (rest : List Listener)
    (hok : ∀ x ∈ pre, x.throws = false) (hth : l.throws = true) :
    invokeAll (pre ++ l :: rest) = (pre.map Listener.id ++ [l.id], true) := by
  induction pre with
  | nil => simp [invokeAll, hth]
  | cons x xs ih =>
      have hx : x.throws = false := hok x (by simp)
      have hr := ih (fun y hy => hok y (by simp [hy]))
      simp [invokeAll, hx, hr]

/-- Claim C4: within one session, an inbound data envelope whose truthy
delivery identifier was already seen is suppressed entirely (no listener
invocation, state untouched); a first occurrence is recorded and
dispatched; an envelope whose payload carries no delivery identifier is
dispatched regardless of the deduplication state; and processing any
message never removes an identifier from the seen set, so a recorded
identifier keeps suppressing for the rest of the session. -/
theorem c4_dedup (reg : Registry) (st : Datastream) (room : String) (d : Payload) :
    (∀ i, txKey d = some i → i ∈ st.transactions →
        st.onMessage reg (.dataMsg room d) = ⟨st, [], false⟩) ∧
    (∀ i, txKey d = some i → i ∉ st.transactions →
        (st.onMessage reg (.dataMsg room d)).state
            = { st with transactions := setAdd st.transactions i } ∧
        (st.onMessage reg (.dataMsg room d)).invoked = (dispatch reg room d).1 ∧
        i ∈ (st.onMessage reg (.dataMsg room d)).state.transactions) ∧
    (txKey d = none →
        (st.onMessage reg (.dataMsg room d)).state = st ∧
        (st.onMessage reg (.dataMsg room d)).invoked = (dispatch reg room d).1) ∧
    (∀ m : InMsg, ∀ x ∈ st.transactions,
        x ∈ (st.onMessage reg m).state.transactions) := by
  refine ⟨?_, ?_, ?_, ?_⟩
  · intro i hi hmem
    simp [Datastream.onMessage, hi, hmem]
  · intro i hi hmem
    refine ⟨?_, ?_, ?_⟩
    · simp [Datastream.onMessage, hi, hmem]
    · simp [Datastream.onMessage, hi, hmem]
    · simp [Datastream.onMessage, hi, hmem]
      exact setAdd_mem_self st.transactions i
  · intro hk
    exact ⟨by simp [Datastream.onMessage, hk], by simp [Datastream.onMessage, hk]⟩
  · intro m x hx
    cases m with
    | malformed => exact hx
    | nonData => exact hx
    | dataMsg room2 d2 =>
        cases hk : txKey d2 with
        | none => simpa [Datastream.onMessage, hk] using hx
        | some i =>
            by_cases hmem : i ∈ st.transactions
            · simpa [Datastream.onMessage, hk, hmem] using hx
            · simp [Datastream.onMessage, hk, hmem]
              exact setAdd_mem_mono st.transactions i x hx

/-- A connected client that has already seen delivery identifier
`"tx1"`. -/
def seenTx1 : Datastream := { openBoth with transactions := ["tx1"] }

/-- Witness for C4 at concrete inputs: a repeated `"tx1"` envelope is
fully suppressed; a fresh `"tx2"` envelope is recorded and dispatched;
an identifier-less envelope is dispatched, leaving the state alone. -/
theorem c4_dedup_witness :
    seenTx1.onMessage [("latest", ⟨7, false⟩)]
        (.dataMsg "latest" ⟨some "tx1", none⟩) = ⟨seenTx1, [], false⟩ ∧
    (seenTx1.onMessage [("latest", ⟨7, false⟩)]
        (.dataMsg "latest" ⟨some "tx2", none⟩)).invoked
      = (dispatch [("latest", ⟨7, false⟩)] "latest" ⟨some "tx2", none⟩).1 ∧
    (seenTx1.onMessage [("latest", ⟨7, false⟩)]
        (.dataMsg "latest" ⟨none, none⟩)).state = seenTx1 := by
  have h := c4_dedup [("latest", ⟨7, false⟩)] seenTx1 "latest" ⟨some "tx1", none⟩
  have h2 := c4_dedup [("latest", ⟨7, false⟩)] seenTx1 "latest" ⟨some "tx2", none⟩
  have h3 := c4_dedup [("latest", ⟨7, false⟩)] seenTx1 "latest" ⟨none, none⟩
  exact ⟨h.1 "tx1" (by decide) (by decide),
         (h2.2.1 "tx2" (by decide) (by decide)).2.1,
         (h3.2.2.1 (by decide)).1⟩

/-- The listener table of the C2 counterexample: two listeners on topic
`"latest"`, the first of which throws. -/
def regTwoListeners : Registry := [("latest", ⟨1, true⟩), ("latest", ⟨2, false⟩)]

/-- Counterexample to claim C2: with two listeners registered for
`"latest"`, an exception in the first prevents the second (sibling)
listener from being invoked for that envelope — the `emit` call aborts
and the enclosing `try`/`catch` turns the exception into an error
event. -/
theorem c2_sibling_counterexample :
    (openBoth.onMessage regTwoListeners (.dataMsg "latest" ⟨none, none⟩)).invoked
        = [1] ∧
    2 ∉ (openBoth.onMessage regTwoListeners (.dataMsg "latest" ⟨none, none⟩)).invoked ∧
    (openBoth.onMessage regTwoListeners
        (.dataMsg "latest" ⟨none, none⟩)).errorEmitted = true := by
  exact ⟨by decide, by decide, by decide⟩

/-- Claim C2 amended: an exception thrown by a listener is caught by the
message handler and surfaced as an error event, but it aborts invocation
of the remaining sibling listeners for that same envelope (listeners
registered before the throwing one still run); client state is not
corrupted, and dispatch of any later envelope proceeds exactly as normal
from the resulting state. -/
theorem c2_exception_isolation (reg : Registry) (st : Datastream)
    (room room2 : String) (d d2 : Payload) (pre rest : List Listener) (l : Listener)
    (hsp : listenersFor reg room = pre ++ l :: rest)
    (hok : ∀ x ∈ pre, x.throws = false) (hth : l.throws = true)
    (hnp : includes room "price:" = false)
    (hk : txKey d = none) (hk2 : txKey d2 = none) :
    (st.onMessage reg (.dataMsg room d)).invoked = pre.map Listener.id ++ [l.id] ∧
    (st.onMessage reg (.dataMsg room d)).errorEmitted = true ∧
    (st.onMessage reg (.dataMsg room d)).state = st ∧
    ((st.onMessage reg (.dataMsg room d)).state.onMessage reg
        (.dataMsg room2 d2)).invoked = (dispatch reg room2 d2).1 := by
  have hdisp : dispatch reg room d = (pre.map Listener.id ++ [l.id], true) := by
    unfold dispatch
    rw [hnp]
    simp only [Bool.false_eq_true, if_false]
    rw [hsp]
    exact invokeAll_throw pre l rest hok hth
  refine ⟨?_, ?_, ?_, ?_⟩
  · simp [Datastream.onMessage, hk, hdisp]
  · simp [Datastream.onMessage, hk, hdisp]
  · simp [Datastream.onMessage, hk]
  · simp [Datastream.onMessage, hk, hk2]

/-- Witness for C2's amended claim at a concrete input: the throwing
listener 1 runs, its sibling 2 is skipped, an error event is emitted,
the state is unchanged, and the next envelope dispatches as normal. -/
theorem c2_exception_isolation_witness :
    (openBoth.onMessage regTwoListeners (.dataMsg "latest" ⟨none, none⟩)).invoked
        = List.map Listener.id [] ++ [1] ∧
    (openBoth.onMessage regTwoListeners
        (.dataMsg "latest" ⟨none, none⟩)).errorEmitted = true ∧
    (openBoth.onMessage regTwoListeners (.dataMsg "latest" ⟨none, none⟩)).state
        = openBoth ∧
    ((openBoth.onMessage regTwoListeners (.dataMsg "latest" ⟨none, none⟩)).state.onMessage
        regTwoListeners (.dataMsg "latest" ⟨none, none⟩)).invoked
      = (dispatch regTwoListeners "latest" ⟨none, none⟩).1 :=
  c2_exception_isolation regTwoListeners openBoth "latest" "latest"
    ⟨none, none⟩ ⟨none, none⟩ [] [⟨2, false⟩] ⟨1, true⟩
    (by decide) (by decide) (by decide) (by decide) (by decide) (by decide)

/-- Claim C6: an inbound data envelope on a per-pool price topic
`price:<pool>` whose payload carries a token field, and which is not
suppressed by deduplication, invokes (assuming no listener throws) first
every listener registered under the synthesized topic
`price-by-token:<token>`, then every listener registered under the
original topic, each with that payload. -/
theorem c6_price_dual_dispatch (reg : Registry) (st : Datastream)
    (pool : String) (d : Payload) (t : String)
    (htok : d.token = some t)
    (hfresh : ∀ i, txKey d = some i → i ∉ st.transactions)
    (h1 : ∀ l ∈ listenersFor reg ("price-by-token:" ++ t), l.throws = false)
    (h2 : ∀ l ∈ listenersFor reg ("price:" ++ pool), l.throws = false) :
    (st.onMessage reg (.dataMsg ("price:" ++ pool) d)).invoked
      = (listenersFor reg ("price-by-token:" ++ t)).map Listener.id
        ++ (listenersFor reg ("price:" ++ pool)).map Listener.id := by
  have hdisp : dispatch reg ("price:" ++ pool) d
      = ((listenersFor reg ("price-by-token:" ++ t)).map Listener.id
          ++ (listenersFor reg ("price:" ++ pool)).map Listener.id, false) := by
    unfold dispatch
    rw [includes_self_append]
    simp only [if_true]
    rw [show tokenField d = t by simp [tokenField, htok]]
    rw [invokeAll_ok _ h1]
    simp only [Bool.false_eq_true, if_false]
    rw [invokeAll_ok _ h2]
  cases hk : txKey d with
  | none => simp [Datastream.onMessage, hk, hdisp]
  | some i =>
      have hni := hfresh i hk
      simp [Datastream.onMessage, hk, hni, hdisp]

/-- The listener table of the C6 witness: one listener keyed by pool,
one keyed by token. -/
def regPrice : Registry :=
  [("price:POOL123", ⟨1, false⟩), ("price-by-token:TOKEN456", ⟨2, false⟩)]

/-- Witness for C6 at a concrete input: an envelope on
`price:POOL123` with `data.token = TOKEN456` invokes the token-keyed
listener 2 and the pool-keyed listener 1. -/
theorem c6_price_dual_dispatch_witness :
    (openBoth.onMessage regPrice
        (.dataMsg ("price:" ++ "POOL123") ⟨none, some "TOKEN456"⟩)).invoked
      = [2, 1] := by
  have h := c6_price_dual_dispatch regPrice openBoth "POOL123"
      ⟨none, some "TOKEN456"⟩ "TOKEN456" (by decide)
      (by intro i hi; cases hi) (by decide) (by decide)
  rw [h]
  decide

/-- A connected client with one subscription and one seen delivery
identifier — the concrete input on which the disconnect claim fails. -/
def connectedClient : Datastream :=
  { openBoth with subscribedRooms := ["latest"], transactions := ["tx1"] }

/-- Claim C1 (code bug exhibited): `disconnect()` does close both
connections, clear the desired-topic set and the deduplication set, and
emit a `disconnected` event with scope all — but the `onclose` handlers
installed on the closed sockets still fire afterwards, and with
`autoReconnect` enabled (the default) the handler calls `reconnect()`,
which emits `reconnecting` and schedules a reconnect timer; when that
timer fires, `connect()` is not a no-op (both socket fields are null and
no connect is in flight), so a reconnect attempt follows a
caller-initiated disconnect, contradicting the claim's final clause. -/
theorem c1_disconnect_schedules_reconnect :
    (connectedClient.disconnectOp.1.socket = none ∧
     connectedClient.disconnectOp.1.transactionSocket = none ∧
     connectedClient.disconnectOp.1.subscribedRooms = [] ∧
     connectedClient.disconnectOp.1.transactions = [] ∧
     connectedClient.disconnectOp.2
        = [Effect.closeSock .main, Effect.closeSock .txn,
           Effect.emitDisconnected .allScope]) ∧
    (connectedClient.disconnectOp.1.socketOnClose .main 0).2
        = [Effect.emitDisconnected .mainScope,
           Effect.emitReconnecting 0,
           Effect.scheduleReconnect (2500 + 0 * (2500 * (1/2)))] ∧
    ((connectedClient.disconnectOp.1.socketOnClose .main 0).1.reconnectTimerFire).connectIsNoOp
        = false := by
  refine ⟨⟨rfl, rfl, rfl, rfl, rfl⟩, ?_, rfl⟩
  norm_num [Datastream.disconnectOp, Datastream.socketOnClose, Datastream.setSock,
    Datastream.reconnectOp, Chan.scope, connectedClient, openBoth]

/-- Witness for C7's amended claim at a concrete input: unsubscribing
`"latest"` on a fully connected client with the topic absent still sends
exactly the leave message, and removes nothing else. -/
theorem c7_unsubscribe_spec_witness :
    (openBoth.unsubscribeRoom "latest").1.subscribedRooms
        = setDelete openBoth.subscribedRooms "latest" ∧
    ((openBoth.unsubscribeRoom "latest").2
        = [Effect.send (roomChan "latest") .leave "latest"]
      ↔ isOpen (openBoth.chanSock (roomChan "latest")) = true) ∧
    (openBoth.unsubscribeRoom "latest").1.transactions = openBoth.transactions := by
  have h := c7_unsubscribe_spec openBoth "latest"
  exact ⟨h.1, h.2.2.1, h.2.2.2.2.1⟩
